import Mathlib

/-!
Verification of the Gcode parsing / state-resolution / segmentation / merge
pipeline of the blender-gcode-reader repository (src/Gcode_parser.py and
src/Blender_import_gcode.py), as a shallow embedding in Lean 4.

Modelling conventions:
* Python floats are modelled by `Fl`, an exact fraction kept in lowest terms
  with a positive denominator (every value in this program is parsed from a
  decimal literal or copied; it is never produced by an operation that could
  distinguish binary floating point from exact decimal arithmetic, except the
  segmenter's subtractions which are also exact on the inputs used).
  Normalisation uses a fuel-based gcd so that every operation reduces in the
  kernel (`Nat.gcd` itself is defined by well-founded recursion and does not).
* Python dicts (`Gcode.parameters`, the Z-value -> layer dict) are modelled as
  insertion-ordered association lists with first-match lookup, replacement
  in place, and append-on-new-key, which is exactly CPython dict behaviour
  for the operations this program performs.
* Uncaught Python exceptions (ValueError in `float()`, KeyError on dict
  subscription, IndexError on `item[0]` of an empty token) are modelled by
  `Except String`: raising aborts the surrounding whole-stream pass, exactly
  as an uncaught exception aborts the Python functions.
* `print` calls are ignored; they do not affect any data.
-/

/-- Fuel-based Euclidean gcd; `fuelGcd (m+1) m n = Nat.gcd m n`, but reduces
inside the kernel. -/
def fuelGcd : Nat → Nat → Nat → Nat
  | 0, _, n => n
  | fuel + 1, m, n => if m = 0 then n else fuelGcd fuel (n % m) m

/-- Exact fraction model of a Python float: numerator and (positive,
coprime-with-numerator) denominator.  All constructors below normalise. -/
structure Fl where
  num : Int
  den : Nat
deriving DecidableEq, Repr

/-- Build a normalised `Fl` from numerator `n` and denominator `d` (`d ≠ 0`
for every call site in this development). -/
def mkFl (n : Int) (d : Nat) : Fl :=
  if d = 0 then ⟨0, 0⟩
  else
    let g := fuelGcd (n.natAbs + 1) n.natAbs d
    if g = 0 then ⟨0, 1⟩ else ⟨n / (g : Int), d / g⟩

def Fl.zero : Fl := ⟨0, 1⟩

/-- Subtraction of two `Fl` values (used for the segmenter's deltas). -/
def Fl.sub (a b : Fl) : Fl :=
  mkFl (a.num * (b.den : Int) - b.num * (a.den : Int)) (a.den * b.den)

/-- Value-level `≤` on `Fl` as a Bool (denominators are positive for every
value this program builds). -/
def Fl.leB (a b : Fl) : Bool :=
  decide (a.num * (b.den : Int) ≤ b.num * (a.den : Int))

/-- Dict value type for `Gcode.parameters`: the program stores floats,
strings, booleans, Python `None`, and (for unknown lines) the raw token
list. -/
inductive PVal where
  | num (q : Fl)
  | str (s : String)
  | bool (b : Bool)
  | null
  | strList (l : List String)
deriving DecidableEq, Repr

/-- First-match lookup in an association list (Python `d[k]` / `k in d`). -/
def dictLookup : List (String × PVal) → String → Option PVal
  | [], _ => none
  | (k', v) :: rest, k => if k' = k then some v else dictLookup rest k

/-- Python `d[k] = v`: replace in place if the key exists, else append. -/
def dictInsert : List (String × PVal) → String → PVal → List (String × PVal)
  | [], k, v => [(k, v)]
  | (k', v') :: rest, k, v =>
    if k' = k then (k', v) :: rest else (k', v') :: dictInsert rest k v

/-- Python `del d[k]` (called only when the key may be absent, guarded by
`if k in d`; removing a missing key is a no-op here). -/
def dictErase : List (String × PVal) → String → List (String × PVal)
  | [], _ => []
  | (k', v') :: rest, k =>
    if k' = k then rest else (k', v') :: dictErase rest k

/-- Python `d.setdefault(k, v)`: keep the existing entry, else append. -/
def dictSetdefault (d : List (String × PVal)) (k : String) (v : PVal) :
    List (String × PVal) :=
  match dictLookup d k with
  | some _ => d
  | none => d ++ [(k, v)]

/-- One parsed Gcode command — the `Gcode` class of src/Gcode_parser.py.
`name` is the line-number label (a string, since the merge step rewrites it
to labels like `a_14`), `command` the opcode string (or the sentinels
`comment` / `skeinforge` / `unknown`), and the typed 5D fields are optional
(`None` in Python) — `E`, `F`, `T` are initialised to `0.0` / `0`, not
`None`, exactly as in `Gcode.__init__`. -/
structure Gcode where
  name : String
  command : String
  parameters : List (String × PVal)
  X : Option Fl
  Y : Option Fl
  Z : Option Fl
  E : Option Fl
  F : Option Fl
  T : Option Int
deriving DecidableEq, Repr

/-- Model of `Gcode.__init__`: empty command, empty parameters, X/Y/Z = None,
E = F = 0.0, T = 0. -/
def mkGcode (n : String) : Gcode :=
  ⟨n, "", [], none, none, none, some Fl.zero, some Fl.zero, some 0⟩

instance : Inhabited Gcode := ⟨mkGcode ""⟩

/-- Model of `Extruder.create_lastState`: the initial running state. -/
def create_lastState : Gcode :=
  { mkGcode "lastState" with
    X := some Fl.zero, Y := some Fl.zero, Z := some Fl.zero,
    parameters :=
      [("units", PVal.null), ("extruderTemp", PVal.null),
       ("extruderPWM", PVal.null), ("absolutePos", PVal.null),
       ("fan", PVal.bool false)] }

/-- Model of `Reprap_Gcode.gcode_move` (G0/G1): identity. -/
def gcode_move (cmd : Gcode) : Gcode := cmd

/-- Model of `gcode_set_units_to_inch` (G20). -/
def gcode_set_units_to_inch (cmd : Gcode) : Gcode :=
  { cmd with parameters := dictInsert cmd.parameters "units" (PVal.str "inch") }

/-- Model of `gcode_set_units_to_mm` (G21). -/
def gcode_set_units_to_mm (cmd : Gcode) : Gcode :=
  { cmd with parameters := dictInsert cmd.parameters "units" (PVal.str "mm") }

/-- Model of `gcode_select_tool` (T0/T1): two sequential `if`s on `cmd.command`. -/
def gcode_select_tool (cmd : Gcode) : Gcode :=
  let c1 := if cmd.command = "T0" then { cmd with T := some 0 } else cmd
  if c1.command = "T1" then { c1 with T := some 1 } else c1

/-- Model of `gcode_move_to_origin` (G28): if at least one of X/Y/Z is present, zero
exactly the present ones; with no arguments, zero all three. -/
def gcode_move_to_origin (cmd : Gcode) : Gcode :=
  if cmd.X ≠ none ∨ cmd.Y ≠ none ∨ cmd.Z ≠ none then
    { cmd with
      X := if cmd.X ≠ none then some Fl.zero else cmd.X,
      Y := if cmd.Y ≠ none then some Fl.zero else cmd.Y,
      Z := if cmd.Z ≠ none then some Fl.zero else cmd.Z }
  else
    { cmd with X := some Fl.zero, Y := some Fl.zero, Z := some Fl.zero }

/-- Model of `gcode_set_to_abs_positioning` (G90). -/
def gcode_set_to_abs_positioning (cmd : Gcode) : Gcode :=
  { cmd with parameters := dictInsert cmd.parameters "absolutePos" (PVal.bool true) }

/-- Model of `gcode_set_to_rel_positioning` (G91). -/
def gcode_set_to_rel_positioning (cmd : Gcode) : Gcode :=
  { cmd with parameters := dictInsert cmd.parameters "absolutePos" (PVal.bool false) }

/-- Model of `gcode_set_position` (G92): documented no-op. -/
def gcode_set_position (cmd : Gcode) : Gcode := cmd

/-- Model of `gcode_extruder_on` (M101): no-op in the source. -/
def gcode_extruder_on (cmd : Gcode) : Gcode := cmd

/-- Model of `gcode_extruder_off` (M103): no-op in the source. -/
def gcode_extruder_off (cmd : Gcode) : Gcode := cmd

/-- Model of `gcode_set_extruder_temp_cont` (M104):
`cmd.parameters["extruderTemp"] = cmd.parameters["S"]` — raises KeyError when
no `S` parameter is present. -/
def gcode_set_extruder_temp_cont (cmd : Gcode) : Except String Gcode :=
  match dictLookup cmd.parameters "S" with
  | some v => .ok { cmd with parameters := dictInsert cmd.parameters "extruderTemp" v }
  | none => .error "KeyError: S"

/-- Model of `gcode_get_extruder_temp` (M105): no-op. -/
def gcode_get_extruder_temp (cmd : Gcode) : Gcode := cmd

/-- Model of `gcode_fan_on` (M106). -/
def gcode_fan_on (cmd : Gcode) : Gcode :=
  { cmd with parameters := dictInsert cmd.parameters "fan" (PVal.bool true) }

/-- Model of `gcode_fan_off` (M107). -/
def gcode_fan_off (cmd : Gcode) : Gcode :=
  { cmd with parameters := dictInsert cmd.parameters "fan" (PVal.bool false) }

/-- Model of `gcode_set_extruder_speed` (M108): no-op. -/
def gcode_set_extruder_speed (cmd : Gcode) : Gcode := cmd

/-- Model of `gcode_set_extruder_temp_wait` (M109): same KeyError-raising copy of `S`
as M104. -/
def gcode_set_extruder_temp_wait (cmd : Gcode) : Except String Gcode :=
  match dictLookup cmd.parameters "S" with
  | some v => .ok { cmd with parameters := dictInsert cmd.parameters "extruderTemp" v }
  | none => .error "KeyError: S"

/-- Model of `gcode_set_extruder_pwm` (M113): KeyError-raising copy of `S` into
`extruderPWM`. -/
def gcode_set_extruder_pwm (cmd : Gcode) : Except String Gcode :=
  match dictLookup cmd.parameters "S" with
  | some v => .ok { cmd with parameters := dictInsert cmd.parameters "extruderPWM" v }
  | none => .error "KeyError: S"

/-- Model of `gcode_set_E_absolute` (M82): no-op. -/
def gcode_set_E_absolute (cmd : Gcode) : Gcode := cmd

/-- Model of `gcode_disable_motors` (M84): no-op. -/
def gcode_disable_motors (cmd : Gcode) : Gcode := cmd

/-- The keys of `Reprap_Gcode.reprapGcodes` (G4/G04 are commented out in the
source). -/
def reprapGcodeKeys : List String :=
  ["G0", "G1", "G20", "G21", "G28", "G90", "G91", "G92",
   "M82", "M84", "M101", "M103", "M104", "M105", "M106", "M107", "M108",
   "M109", "M113", "T0", "T1"]

/-- Dispatch through `Reprap_Gcode.reprapGcodes` for a command known to be in
the table; the fallthrough arm is never reached from `reprapGcodeKeys`. -/
def applyReprapGcode (cmd : Gcode) : Except String Gcode :=
  match cmd.command with
  | "G0" => .ok (gcode_move cmd)
  | "G1" => .ok (gcode_move cmd)
  | "G20" => .ok (gcode_set_units_to_inch cmd)
  | "G21" => .ok (gcode_set_units_to_mm cmd)
  | "G28" => .ok (gcode_move_to_origin cmd)
  | "G90" => .ok (gcode_set_to_abs_positioning cmd)
  | "G91" => .ok (gcode_set_to_rel_positioning cmd)
  | "G92" => .ok (gcode_set_position cmd)
  | "M82" => .ok (gcode_set_E_absolute cmd)
  | "M84" => .ok (gcode_disable_motors cmd)
  | "M101" => .ok (gcode_extruder_on cmd)
  | "M103" => .ok (gcode_extruder_off cmd)
  | "M104" => gcode_set_extruder_temp_cont cmd
  | "M105" => .ok (gcode_get_extruder_temp cmd)
  | "M106" => .ok (gcode_fan_on cmd)
  | "M107" => .ok (gcode_fan_off cmd)
  | "M108" => .ok (gcode_set_extruder_speed cmd)
  | "M109" => gcode_set_extruder_temp_wait cmd
  | "M113" => gcode_set_extruder_pwm cmd
  | "T0" => .ok (gcode_select_tool cmd)
  | "T1" => .ok (gcode_select_tool cmd)
  | _ => .ok cmd

/-- The per-record transform pass of `convert_rawGcode_to_standardGcode`
(`if cmd.command in Reprap_Gcode.reprapGcodes.keys(): cmd = ...(cmd)`). -/
def applyReprapIfKnown (cmd : Gcode) : Except String Gcode :=
  if cmd.command ∈ reprapGcodeKeys then applyReprapGcode cmd else .ok cmd

/-- Apply the transform table to every record in order; an uncaught KeyError
aborts the whole pass. -/
def applyReprapAll : List Gcode → Except String (List Gcode)
  | [] => .ok []
  | c :: rest => do
    let c' ← applyReprapIfKnown c
    let rest' ← applyReprapAll rest
    pure (c' :: rest')

/-- Split a character list at the first occurrence of `c`; returns the part
before and the part after (excluding `c`).  Mirrors Python
`s.split(c, 1)`; only reached when `c` is known to occur. -/
def breakAtChar : List Char → Char → (List Char × List Char)
  | [], _ => ([], [])
  | x :: xs, c =>
    if x = c then ([], xs)
    else
      let p := breakAtChar xs c
      (x :: p.1, p.2)

/-- Python `s.strip()` on a character list (default whitespace strip). -/
def trimChars (l : List Char) : List Char :=
  ((l.dropWhile Char.isWhitespace).reverse.dropWhile Char.isWhitespace).reverse

/-- Python `s.strip(cs)` for an explicit strip-character set. -/
def stripCharSet (l : List Char) (cs : List Char) : List Char :=
  ((l.dropWhile (· ∈ cs)).reverse.dropWhile (· ∈ cs)).reverse

/-- Python `s.split(sep)` on a single separator character (keeps empty
pieces, exactly like `"a  b".split(" ") = ['a', '', 'b']`). -/
def splitChar : List Char → Char → List (List Char)
  | [], _ => [[]]
  | x :: xs, c =>
    if x = c then [] :: splitChar xs c
    else
      match splitChar xs c with
      | h :: t => (x :: h) :: t
      | [] => [[x]]

/-- Decimal digit-string value. -/
def digitsVal (l : List Char) : Nat :=
  l.foldl (fun a c => a * 10 + (c.toNat - '0'.toNat)) 0

/-- Python `float(s)` on an unsigned body: digits with at most one decimal
point (Python additionally accepts exponents / inf / nan, which never occur
in Gcode parameter values and are modelled as failures). -/
def parseFloatCore (l : List Char) : Option Fl :=
  match splitChar l '.' with
  | [d] =>
    if d ≠ [] ∧ d.all Char.isDigit then some (mkFl (digitsVal d) 1) else none
  | [d, f] =>
    if (d ≠ [] ∨ f ≠ []) ∧ d.all Char.isDigit ∧ f.all Char.isDigit then
      some (mkFl ((digitsVal d) * (10 ^ f.length) + digitsVal f) (10 ^ f.length))
    else none
  | _ => none

/-- Python `float(s)` (ValueError modelled as `none`). -/
def parseFloat (s : String) : Option Fl :=
  match s.toList with
  | '+' :: r => parseFloatCore r
  | '-' :: r => (parseFloatCore r).map (fun q => mkFl (-q.num) q.den)
  | r => parseFloatCore r

/-- Python `int(s)` (ValueError modelled as `none`). -/
def parseInt (s : String) : Option Int :=
  match s.toList with
  | '+' :: r => if r ≠ [] ∧ r.all Char.isDigit then some (digitsVal r) else none
  | '-' :: r => if r ≠ [] ∧ r.all Char.isDigit then some (-(digitsVal r : Int)) else none
  | r => if r ≠ [] ∧ r.all Char.isDigit then some (digitsVal r) else none

/-- The parameter-token loop of step 5 of
`Extruder.convert_rawGcode_to_standardGcode`: route `X/Y/Z/E/F/T` into the
typed fields, everything else into `parameters` keyed by its first letter.
A non-numeric remainder raises ValueError (aborting the stream); an empty
token raises IndexError at `item[0]`. -/
def processTokens : Gcode → List String → Except String Gcode
  | cmd, [] => .ok cmd
  | cmd, item :: rest =>
    match item.toList with
    | [] => .error "IndexError: string index out of range"
    | c :: tail =>
      let valStr := String.mk (trimChars tail)
      if c = 'X' then
        match parseFloat valStr with
        | some q => processTokens { cmd with X := some q } rest
        | none => .error ("ValueError: could not convert string to float: " ++ valStr)
      else if c = 'Y' then
        match parseFloat valStr with
        | some q => processTokens { cmd with Y := some q } rest
        | none => .error ("ValueError: could not convert string to float: " ++ valStr)
      else if c = 'Z' then
        match parseFloat valStr with
        | some q => processTokens { cmd with Z := some q } rest
        | none => .error ("ValueError: could not convert string to float: " ++ valStr)
      else if c = 'E' then
        match parseFloat valStr with
        | some q => processTokens { cmd with E := some q } rest
        | none => .error ("ValueError: could not convert string to float: " ++ valStr)
      else if c = 'F' then
        match parseFloat valStr with
        | some q => processTokens { cmd with F := some q } rest
        | none => .error ("ValueError: could not convert string to float: " ++ valStr)
      else if c = 'T' then
        match parseInt valStr with
        | some n => processTokens { cmd with T := some n } rest
        | none => .error ("ValueError: invalid literal for int: " ++ valStr)
      else
        match parseFloat valStr with
        | some q =>
          processTokens
            { cmd with parameters := dictInsert cmd.parameters (String.mk [c]) (PVal.num q) } rest
        | none => .error ("ValueError: could not convert string to float: " ++ valStr)

/-- Tokenize one raw line (steps 1-5 of
`Extruder.convert_rawGcode_to_standardGcode`), given its 1-based line
number.  Classification priority: skeinforge marker, then `;` comment
stripping, then `(…)` comment stripping, then whole-line comment, then
opcode lookup (unknown opcodes are logged and kept, they do not abort). -/
def tokenizeLine (lineNr : Nat) (rawLine : String) : Except String Gcode :=
  let cmd0 := mkGcode (toString lineNr)
  let raw := rawLine.toList
  if raw.take 2 = ['(', '<'] then
    .ok { cmd0 with
          command := "skeinforge",
          parameters := [("skeinforge", PVal.str (String.mk (raw.drop 1).dropLast))] }
  else
    let (line1, params1) :=
      if raw.contains ';' then
        let p := breakAtChar raw ';'
        (trimChars p.1,
         dictInsert cmd0.parameters "comment" (PVal.str (String.mk (trimChars p.2))))
      else (raw, cmd0.parameters)
    let (line2, params2) :=
      if line1.contains '(' then
        let p := breakAtChar line1 '('
        (trimChars p.1,
         dictInsert params1 "comment" (PVal.str (String.mk (stripCharSet p.2 [';', ')']))))
      else (line1, params1)
    if line2.length = 0 then
      .ok { cmd0 with
            command := "comment",
            parameters :=
              dictInsert params2 "comment" (PVal.str (String.mk (stripCharSet raw [';', '(', ')']))) }
    else
      let tokens := splitChar (trimChars line2) ' '
      match tokens with
      | [] => .error "unreachable: split never returns an empty list"
      | firstL :: restL =>
        if String.mk firstL ∈ reprapGcodeKeys then
          processTokens
            { cmd0 with command := String.mk (trimChars firstL), parameters := params2 }
            (restL.map String.mk)
        else
          .ok { cmd0 with
                command := "unknown",
                parameters :=
                  dictInsert params2 "comment" (PVal.strList (tokens.map String.mk)) }

/-- Tokenize a list of raw lines with line numbers starting at `n + 1`; the
first uncaught exception aborts the pass. -/
def tokenizeFrom (n : Nat) : List String → Except String (List Gcode)
  | [] => .ok []
  | l :: rest => do
    let g ← tokenizeLine (n + 1) l
    let gs ← tokenizeFrom (n + 1) rest
    pure (g :: gs)

/-- Model of `Gcode.update_state(self, other)`: returns the pair
(updated `self`, updated `other`) — the source mutates both. -/
def update_state (self other : Gcode) : Gcode × Gcode :=
  let otherParams0 :=
    dictErase (dictErase (dictErase other.parameters "comment") "unknown") "skeinforge"
  let newX := if self.X = none then other.X else self.X
  let newY := if self.Y = none then other.Y else self.Y
  let newZ := if self.Z = none then other.Z else self.Z
  let newE := if self.E = none then other.E else self.E
  let newF := if self.F = none then other.F else self.F
  let selfT := if self.T = none then other.T else self.T
  let selfParams :=
    otherParams0.foldl (fun acc kv => dictSetdefault acc kv.1 kv.2) self.parameters
  let otherParams :=
    otherParams0.map (fun kv => (kv.1, (dictLookup selfParams kv.1).getD kv.2))
  ({ self with
      X := newX, Y := newY, Z := newZ, E := newE, F := newF,
      T := selfT, parameters := selfParams },
   { other with
      command := self.command,
      X := newX, Y := newY, Z := newZ, E := newE, F := newF,
      parameters := otherParams })

/-- The final loop of `convert_rawGcode_to_standardGcode`: thread the
running state through every record, returning the resolved records and the
final state. -/
def resolveAll (st : Gcode) : List Gcode → List Gcode × Gcode
  | [] => ([], st)
  | c :: rest =>
    let p := update_state c st
    let r := resolveAll p.2 rest
    (p.1 :: r.1, r.2)

/-- Model of `Extruder.convert_rawGcode_to_standardGcode` end to end: tokenize every
line, apply the opcode table, then resolve state starting from
`create_lastState`. -/
def convert_rawGcode_to_standardGcode (lines : List String) : Except String (List Gcode) := do
  let toks ← tokenizeFrom 0 lines
  let ts ← applyReprapAll toks
  pure (resolveAll create_lastState ts).1

/-- Totalised field read used by the segmenter's delta arithmetic.  In the
source the fields of the (resolved) records reaching
`gcodeCurve.create_splines_data` are always floats, never `None`
(`create_lastState` initialises every axis to `0.0`, so resolution fills
every field); Python would raise TypeError otherwise. -/
def fget (o : Option Fl) : Fl := o.getD Fl.zero

/-- The spline-construction loop of `gcodeCurve.create_splines_data`:
`done` holds the completed splines (reversed, each reversed) and `cur` the
spline currently being extended (reversed); `last` is the last point that
was appended to any spline.  A record with ΔX = ΔY = 0 is skipped (and
`last` stays); ΔE > 0 appends to the current spline; ΔE ≤ 0 closes it and
opens a new one. -/
def splinesGo (done : List (List Gcode)) (cur : List Gcode) (last : Gcode) :
    List Gcode → List (List Gcode)
  | [] => ((cur.reverse :: done).reverse)
  | r :: rs =>
    let dx := Fl.sub (fget r.X) (fget last.X)
    let dy := Fl.sub (fget r.Y) (fget last.Y)
    let de := Fl.sub (fget r.E) (fget last.E)
    if dx.num ≠ 0 ∨ dy.num ≠ 0 then
      if 0 < de.num then splinesGo done (r :: cur) r rs
      else splinesGo (cur.reverse :: done) [r] r rs
    else splinesGo done cur last rs

/-- Model of `gcodeCurve.create_splines_data`: build splines from the layer's
records, then drop every spline with fewer than 2 records.  The source
starts from `self.standardGcode[0]` (layers are never empty; the `[]` case
would raise IndexError in Python). -/
def create_splines_data : List Gcode → List (List Gcode)
  | [] => []
  | first :: rest => (splinesGo [] [first] first rest).filter (fun sp => 2 ≤ sp.length)

/-- Lookup in the Z-value-keyed layer dict (`self.gcodeCurves[zValue]`). -/
def zLookup : List (Option Fl × List Gcode) → Option Fl → Option (List Gcode)
  | [], _ => none
  | (k, v) :: rest, z => if k = z then some v else zLookup rest z

/-- Model of `self.gcodeCurves[zValue].add_gcode(cmd)`: append `cmd` to the layer
keyed `z`. -/
def zAppend (curves : List (Option Fl × List Gcode)) (z : Option Fl) (cmd : Gcode) :
    List (Option Fl × List Gcode) :=
  curves.map (fun p => if p.1 = z then (p.1, p.2 ++ [cmd]) else p)

/-- The record loop of `gcodeCurvesData.add_gcode_to_gcodeCurves`, with the
process-wide `gcodeCurve._registry` passed explicitly.  A Z value found in
the registry but absent from this run's `gcodeCurves` dict raises KeyError
(`self.gcodeCurves[zValue]` on a missing key). -/
def addGcodeGo (reg : List (Option Fl)) (curves : List (Option Fl × List Gcode)) :
    List Gcode → Except String (List (Option Fl) × List (Option Fl × List Gcode))
  | [] => .ok (reg, curves)
  | cmd :: rest =>
    if cmd.command ∈ (["comment", "skeinforge", "unknown"] : List String) then
      addGcodeGo reg curves rest
    else
      if cmd.Z ∈ reg then
        match zLookup curves cmd.Z with
        | some _ => addGcodeGo reg (zAppend curves cmd.Z cmd) rest
        | none => .error "KeyError"
      else addGcodeGo (reg ++ [cmd.Z]) (curves ++ [(cmd.Z, [cmd])]) rest

/-- The final `try: gcodeCurves.pop(None); _registry.remove(None)` of
`add_gcode_to_gcodeCurves` (the KeyError of a missing `None` key is caught,
in which case the registry is left alone). -/
def popNoneLayer (reg : List (Option Fl)) (curves : List (Option Fl × List Gcode)) :
    List (Option Fl) × List (Option Fl × List Gcode) :=
  match zLookup curves none with
  | some _ => (reg.erase none, curves.filter (fun p => p.1 ≠ none))
  | none => (reg, curves)

/-- One full segmentation run (the Segmenter of spec §4.4): group the
resolved records into layers via `add_gcode_to_gcodeCurves`, then run
`create_splines_data` on every layer.  `reg` is the state of the
process-wide `gcodeCurve._registry` before the run; the returned registry
is its state after the run. -/
def segmentRun (reg : List (Option Fl)) (cmds : List Gcode) :
    Except String (List (Option Fl) × List (Option Fl × List (List Gcode))) :=
  match addGcodeGo reg [] cmds with
  | .error e => .error e
  | .ok (reg2, curves) =>
    let p := popNoneLayer reg2 curves
    .ok (p.1, p.2.map (fun layer => (layer.1, create_splines_data layer.2)))

/-- Insertion into a sorted list, by the value order on `Fl`. -/
def insertSortedFl (x : Fl) : List Fl → List Fl
  | [] => [x]
  | y :: ys => if Fl.leB x y then x :: y :: ys else y :: insertSortedFl x ys

/-- Python `sorted(...)` on a list of floats (insertion sort). -/
def sortFl (l : List Fl) : List Fl := l.foldr insertSortedFl []

/-- Model of step 2's Z-value collection in `Machine.merge_extruders`: the distinct Z
values of stream 1 from index `line1 - 1` on and stream 2 from `line2 - 1`
on (note the source's off-by-one: the last header record's Z participates),
with `None` discarded, sorted ascending — `sorted(list(set(...)))`. -/
def mergeZvalues (e1 : List Gcode) (l1 : Nat) (e2 : List Gcode) (l2 : Nat) : List Fl :=
  sortFl ((((e1.drop (l1 - 1)) ++ (e2.drop (l2 - 1))).filterMap (fun c => c.Z)).dedup)

/-- The synthetic records `Gcode(name="x_<countX>")` the merge inserts; only
`command` and `parameters["comment"]` are set afterwards (and, in step 1
only, `T`). -/
def mkMarker (countX : Nat) (cmd comment : String) : Gcode :=
  { mkGcode ("x_" ++ toString countX) with
    command := cmd, parameters := [("comment", PVal.str comment)] }

/-- The header-copy loops (steps 1b / 1d of `merge_extruders`): emit the
records at indices `i, i+1, …` (`k` of them) after rewriting their `name`
to `pre + name` and their `T` to `t` — the rewrite mutates the source
stream's records in place, so the updated stream is returned too. -/
def headerLoop : Nat → List Gcode → Nat → String → Int → List Gcode × List Gcode
  | 0, e, _, _, _ => (e, [])
  | k + 1, e, i, pre, t =>
    let r := e.getD i default
    let r' := { r with name := pre ++ r.name, T := some t }
    let p := headerLoop k (e.set i r') (i + 1) pre t
    (p.1, r' :: p.2)

/-- The in-place rewrite the merge applies to every record it emits:
`newExtruder.standardGcode[-1].T = t` and
`newExtruder.standardGcode[-1].name = pre + str(name)` (the appended object
is the source stream's record, so the source record changes too). -/
def emitRecord (cur : Gcode) (pre : String) (t : Int) : Gcode :=
  { cur with T := some t, name := pre ++ cur.name }

/-- One `while extruderN.standardGcode[lineN].Z == Zval` emission loop of
step 2 of `merge_extruders`: emit (and mutate in place via `emitRecord`)
consecutive records whose Z equals `z`, stopping without advancing when the
cursor reaches the last index (`List.set` preserves length, so the
`len(...) - 1` bound is written on the original stream).  `fuel` bounds
the recursion; callers pass the stream length, which the loop can never
exhaust.  Returns (updated stream, final cursor, emitted records). -/
def emitLoop : Nat → List Gcode → Nat → Fl → String → Int → List Gcode × Nat × List Gcode
  | 0, e, i, _, _, _ => (e, i, [])
  | fuel + 1, e, i, z, pre, t =>
    if (e.getD i default).Z = some z then
      if i = e.length - 1 then
        (e.set i (emitRecord (e.getD i default) pre t), i,
         [emitRecord (e.getD i default) pre t])
      else
        ((emitLoop fuel (e.set i (emitRecord (e.getD i default) pre t)) (i + 1) z pre t).1,
         (emitLoop fuel (e.set i (emitRecord (e.getD i default) pre t)) (i + 1) z pre t).2.1,
         emitRecord (e.getD i default) pre t ::
           (emitLoop fuel (e.set i (emitRecord (e.getD i default) pre t)) (i + 1) z pre t).2.2)
    else (e, i, [])

/-- The first `if` block of step 2's loop body in `merge_extruders` (stream
1, tool 0): when stream 1's cursor stands at height `z`, emit the `T0`
switch marker (consuming one `countX` number) followed by the emission
loop's records.  Returns (stream, cursor, countX, emitted chunk). -/
def step2A (e1 : List Gcode) (l1 : Nat) (z : Fl) (cnt : Nat) :
    List Gcode × Nat × Nat × List Gcode :=
  if (e1.getD l1 default).Z = some z then
    let p := emitLoop e1.length e1 l1 z "a_" 0
    (p.1, p.2.1, cnt + 1, mkMarker cnt "T0" "** switch to T0 **" :: p.2.2)
  else (e1, l1, cnt, [])

/-- The second `if` block of step 2's loop body (stream 2, tool 1). -/
def step2B (e2 : List Gcode) (l2 : Nat) (z : Fl) (cnt : Nat) :
    List Gcode × Nat × Nat × List Gcode :=
  if (e2.getD l2 default).Z = some z then
    let p := emitLoop e2.length e2 l2 z "b_" 1
    (p.1, p.2.1, cnt + 1, mkMarker cnt "T1" "** switch to T1 **" :: p.2.2)
  else (e2, l2, cnt, [])

/-- Step 2 of `merge_extruders`: walk the sorted Z values; for each, emit a
`T0` marker plus stream 1's run of records at that height (if its cursor is
there), then a `T1` marker plus stream 2's run (if its cursor is there).
Returns the two mutated streams and the emitted body. -/
def mergeStep2 : List Fl → List Gcode → Nat → List Gcode → Nat → Nat →
    List Gcode × List Gcode × List Gcode
  | [], e1, _, e2, _, _ => (e1, e2, [])
  | z :: zs, e1, l1, e2, l2, cnt =>
    let a := step2A e1 l1 z cnt
    let b := step2B e2 l2 z a.2.2.1
    let rest := mergeStep2 zs a.1 a.2.1 b.1 b.2.1 b.2.2.1
    (rest.1, rest.2.1, a.2.2.2 ++ (b.2.2.2 ++ rest.2.2))

/-- Step 1 of `Machine.merge_extruders`: the two initialization blocks with
their synthetic `T0` / `T1` / closing-comment markers (the step-1 markers
also set `T` explicitly).  Returns the two (mutated) streams and the header
part of the merged output. -/
def mergeHeaders (e1 e2 : List Gcode) (l1 l2 : Nat) :
    List Gcode × List Gcode × List Gcode :=
  let m1 := { mkMarker 1 "T0" "** extruder 1 Initialization start **" with T := some 0 }
  let h1 := headerLoop l1 e1 0 "a_" 0
  let m2 := { mkMarker 2 "comment" "** extruder 1 Initialization end **" with T := some 0 }
  let m3 := { mkMarker 3 "T1" "** extruder 2 Initialization start **" with T := some 1 }
  let h2 := headerLoop l2 e2 0 "b_" 1
  let m4 := { mkMarker 4 "comment" "** extruder 2 Initialization end **" with T := some 1 }
  (h1.1, h2.1, (m1 :: h1.2) ++ (m2 :: m3 :: h2.2) ++ [m4])

/-- The step-2 part of the merged output (everything after the two header
blocks): the body of `Machine.merge_extruders`, starting from the mutated
streams the header phase leaves behind and `countX = 5`. -/
def mergeBody (e1 e2 : List Gcode) (l1 l2 : Nat) : List Gcode :=
  let h := mergeHeaders e1 e2 l1 l2
  (mergeStep2 (mergeZvalues h.1 l1 h.2.1 l2) h.1 l1 h.2.1 l2 5).2.2

/-- Model of `Machine.merge_extruders(line1, line2)` on two already-resolved streams:
returns (mutated stream 1, mutated stream 2, merged output).  The merged
output is the header phase followed by the height-interleaved body; the
mutated streams are what the source lists hold afterwards (the merge
rewrites `name` and `T` of every record it emits in place). -/
def merge_extruders (e1 e2 : List Gcode) (l1 l2 : Nat) :
    List Gcode × List Gcode × List Gcode :=
  let h := mergeHeaders e1 e2 l1 l2
  let s := mergeStep2 (mergeZvalues h.1 l1 h.2.1 l2) h.1 l1 h.2.1 l2 5
  (s.1, s.2.1, h.2.2 ++ s.2.2)

/-- The merge-ordering relation of spec §4.5: with `h` a height, it never
happens that an earlier body record belongs to stream B at height `h`
(`tool_index` 1 — the merge rewrites `T` to the owning tool on every body
record it emits) while a later body record belongs to stream A at height
`h` (`tool_index` 0). -/
def mergeOrderOK (h : Fl) (r1 r2 : Gcode) : Prop :=
  ¬(r1.T = some 1 ∧ r1.Z = some h ∧ r2.T = some 0 ∧ r2.Z = some h)

/-- Shape of the records the tokenizer classifies as `comment`,
`skeinforge` or `unknown`: no position fields, and only `comment` /
`skeinforge` keys in `parameters`. -/
def commentLike (c : Gcode) : Prop :=
  c.command ∈ (["comment", "skeinforge", "unknown"] : List String)
  ∧ c.X = none ∧ c.Y = none ∧ c.Z = none
  ∧ ∀ kv ∈ c.parameters, kv.1 ∈ (["comment", "skeinforge"] : List String)

/-- Invariant of the running state's parameter dict: distinct keys, none of
the three sentinel keys `update_state` strips. -/
def stateOK (S : Gcode) : Prop :=
  (S.parameters.map Prod.fst).Nodup
  ∧ "comment" ∉ S.parameters.map Prod.fst
  ∧ "unknown" ∉ S.parameters.map Prod.fst
  ∧ "skeinforge" ∉ S.parameters.map Prod.fst

/-- Agreement of two running states on every component a later record can
observe (`command`, `E` and `F` are excluded: `E`/`F` are only read when
the record's own value is `None`, which never holds for tokenizer-produced
records, and `command` is never read). -/
def agreeState (S1 S2 : Gcode) : Prop :=
  S1.name = S2.name ∧ S1.X = S2.X ∧ S1.Y = S2.Y ∧ S1.Z = S2.Z
  ∧ S1.T = S2.T ∧ S1.parameters = S2.parameters

/-- The raw two-line stream of the C1 scenario. -/
def c1_lines : List String := ["G1 X10 Y10 Z0.2 E5 F1200", "G1 Y20"]

/-- Resolved record `G1 X0 Y0 Z0 E0 F0` of the C8 scenario. -/
def c8p1 : Gcode :=
  { mkGcode "1" with
    command := "G1", X := some ⟨0, 1⟩, Y := some ⟨0, 1⟩,
    Z := some ⟨0, 1⟩, E := some ⟨0, 1⟩, F := some ⟨0, 1⟩ }

/-- Resolved record `G1 X5 Y0 Z0 E2 F0`. -/
def c8p2 : Gcode :=
  { mkGcode "2" with
    command := "G1", X := some ⟨5, 1⟩, Y := some ⟨0, 1⟩,
    Z := some ⟨0, 1⟩, E := some ⟨2, 1⟩, F := some ⟨0, 1⟩ }

/-- Resolved record `G1 X5 Y5 Z0 E0 F0`. -/
def c8p3 : Gcode :=
  { mkGcode "3" with
    command := "G1", X := some ⟨5, 1⟩, Y := some ⟨5, 1⟩,
    Z := some ⟨0, 1⟩, E := some ⟨0, 1⟩, F := some ⟨0, 1⟩ }

/-- Resolved record `G1 X0 Y5 Z0 E2 F0`. -/
def c8p4 : Gcode :=
  { mkGcode "4" with
    command := "G1", X := some ⟨0, 1⟩, Y := some ⟨5, 1⟩,
    Z := some ⟨0, 1⟩, E := some ⟨2, 1⟩, F := some ⟨0, 1⟩ }

/-- Header record (no height) of the first small merge-input stream. -/
def c5h1 : Gcode := { mkGcode "1" with command := "G21" }

/-- Body record at height 0.2 of the first merge-input stream. -/
def c5b1 : Gcode :=
  { mkGcode "2" with
    command := "G1", X := some ⟨0, 1⟩, Y := some ⟨0, 1⟩,
    Z := some ⟨1, 5⟩, E := some ⟨1, 1⟩ }

/-- Header record of the second merge-input stream. -/
def c5h2 : Gcode := { mkGcode "1" with command := "G21" }

/-- Body record at height 0.2 of the second merge-input stream. -/
def c5b2 : Gcode :=
  { mkGcode "2" with
    command := "G1", X := some ⟨3, 1⟩, Y := some ⟨0, 1⟩,
    Z := some ⟨1, 5⟩, E := some ⟨2, 1⟩ }

/-- First merge-input stream (header ends at index 1). -/
def c5e1 : List Gcode := [c5h1, c5b1]

/-- Second merge-input stream (header ends at index 1). -/
def c5e2 : List Gcode := [c5h2, c5b2]

/-- Resolved `G1`-style record used in the C2 witness. -/
def c2r1 : Gcode :=
  { mkGcode "1" with
    command := "G1", X := some ⟨10, 1⟩, Y := some ⟨10, 1⟩,
    Z := some ⟨1, 5⟩, E := some ⟨5, 1⟩, F := some ⟨1200, 1⟩ }

/-- Comment record inserted in the C2 witness. -/
def c2c : Gcode :=
  { mkGcode "2" with command := "comment", parameters := [("comment", PVal.str "hi")] }

/-- Follow-up record of the C2 witness. -/
def c2r2 : Gcode := { mkGcode "3" with command := "G1", Y := some ⟨20, 1⟩ }

/-- The record `tokenizeLine` produces for the raw line `M104`. -/
def c10rec : Gcode :=
  ⟨"1", "M104", [], none, none, none, some Fl.zero, some Fl.zero, some 0⟩

theorem eraseIdx_append_cons {α : Type} (l1 : List α) (a : α) (l2 : List α) :
    (l1 ++ a :: l2).eraseIdx l1.length = l1 ++ l2 := by
  induction l1 with
  | nil => rfl
  | cons x xs ih =>
    simpa [List.eraseIdx] using ih

theorem dictLookup_append_some {d1 d2 : List (String × PVal)} {k : String} {v : PVal}
    (h : dictLookup d1 k = some v) : dictLookup (d1 ++ d2) k = some v := by
  induction d1 with
  | nil => simp [dictLookup] at h
  | cons e rest ih =>
    obtain ⟨k1, v1⟩ := e
    by_cases h1 : k1 = k
    · simpa [dictLookup, h1] using h
    · simp [dictLookup, h1] at h ⊢
      exact ih h

theorem dictLookup_append_none {d1 d2 : List (String × PVal)} {k : String}
    (h : dictLookup d1 k = none) : dictLookup (d1 ++ d2) k = dictLookup d2 k := by
  induction d1 with
  | nil => rfl
  | cons e rest ih =>
    obtain ⟨k1, v1⟩ := e
    by_cases h1 : k1 = k
    · simp [dictLookup, h1] at h
    · simp [dictLookup, h1] at h ⊢
      exact ih h

theorem dictLookup_none_of_keys {d : List (String × PVal)} {ks : List String} {k : String}
    (hd : ∀ kv ∈ d, kv.1 ∈ ks) (hk : k ∉ ks) : dictLookup d k = none := by
  induction d with
  | nil => rfl
  | cons e rest ih =>
    obtain ⟨k1, v1⟩ := e
    have h1 : k1 ∈ ks := hd (k1, v1) (by simp)
    have hne : k1 ≠ k := by rintro rfl; exact hk h1
    simp [dictLookup, hne]
    exact ih (fun kv hkv => hd kv (by simp [hkv]))

theorem dictErase_of_not_mem {d : List (String × PVal)} {k : String}
    (h : k ∉ d.map Prod.fst) : dictErase d k = d := by
  induction d with
  | nil => rfl
  | cons e rest ih =>
    obtain ⟨k1, v1⟩ := e
    rw [List.map_cons, List.mem_cons] at h
    push_neg at h
    have hne : k1 ≠ k := fun hh => h.1 hh.symm
    simp [dictErase, hne, ih h.2]

theorem sdFold_lookup_some {entries : List (String × PVal)} :
    ∀ {acc : List (String × PVal)} {k : String} {v : PVal}, dictLookup acc k = some v →
    dictLookup (entries.foldl (fun a kv => dictSetdefault a kv.1 kv.2) acc) k = some v := by
  induction entries with
  | nil => intro acc k v h; exact h
  | cons e rest ih =>
    intro acc k v h
    simp only [List.foldl_cons]
    apply ih
    unfold dictSetdefault
    cases hl : dictLookup acc e.1 with
    | some w => exact h
    | none => exact dictLookup_append_some h

theorem sdFold_lookup_mem {entries : List (String × PVal)} :
    ∀ {acc : List (String × PVal)} {k : String} {v : PVal}, (k, v) ∈ entries →
    (entries.map Prod.fst).Nodup → dictLookup acc k = none →
    dictLookup (entries.foldl (fun a kv => dictSetdefault a kv.1 kv.2) acc) k = some v := by
  induction entries with
  | nil => intro acc k v h; simp at h
  | cons e rest ih =>
    intro acc k v hmem hnd hnone
    obtain ⟨k0, v0⟩ := e
    simp only [List.map_cons, List.nodup_cons] at hnd
    obtain ⟨hk0, hnd'⟩ := hnd
    simp only [List.foldl_cons]
    rcases List.mem_cons.mp hmem with heq | hmem'
    · injection heq with h1 h2
      subst h1; subst h2
      apply sdFold_lookup_some
      unfold dictSetdefault
      simp only [hnone]
      rw [dictLookup_append_none hnone]
      simp [dictLookup]
    · have hkrest : k ∈ rest.map Prod.fst := List.mem_map.mpr ⟨(k, v), hmem', rfl⟩
      have hne : k0 ≠ k := by rintro rfl; exact hk0 hkrest
      apply ih hmem' hnd'
      unfold dictSetdefault
      cases hl : dictLookup acc k0 with
      | some w => exact hnone
      | none =>
        rw [dictLookup_append_none hnone]
        simp [dictLookup, hne]

theorem map_lookup_self {d sp : List (String × PVal)}
    (h : ∀ kv ∈ d, dictLookup sp kv.1 = some kv.2) :
    d.map (fun kv => (kv.1, (dictLookup sp kv.1).getD kv.2)) = d := by
  induction d with
  | nil => rfl
  | cons e rest ih =>
    obtain ⟨k1, v1⟩ := e
    have h1 := h (k1, v1) (by simp)
    simp only [List.map_cons, h1, Option.getD_some]
    exact congrArg _ (ih (fun kv hkv => h kv (by simp [hkv])))

theorem update_state_snd_name (r S : Gcode) : (update_state r S).2.name = S.name := rfl

theorem update_state_snd_T (r S : Gcode) : (update_state r S).2.T = S.T := rfl

theorem update_state_snd_X (r S : Gcode) :
    (update_state r S).2.X = if r.X = none then S.X else r.X := rfl

theorem update_state_snd_Y (r S : Gcode) :
    (update_state r S).2.Y = if r.Y = none then S.Y else r.Y := rfl

theorem update_state_snd_Z (r S : Gcode) :
    (update_state r S).2.Z = if r.Z = none then S.Z else r.Z := rfl

theorem update_state_snd_parameters (r S : Gcode) :
    (update_state r S).2.parameters =
      (dictErase (dictErase (dictErase S.parameters "comment") "unknown") "skeinforge").map
        (fun kv => (kv.1,
          (dictLookup
            ((dictErase (dictErase (dictErase S.parameters "comment") "unknown")
                "skeinforge").foldl (fun acc kv2 => dictSetdefault acc kv2.1 kv2.2)
              r.parameters)
            kv.1).getD kv.2)) := rfl

theorem update_state_comment_snd {c S : Gcode} (hS : stateOK S) (hc : commentLike c) :
    agreeState (update_state c S).2 S := by
  obtain ⟨hcmd, hx, hy, hz, hkeys⟩ := hc
  obtain ⟨hnd, h1, h2, h3⟩ := hS
  have hdel :
      dictErase (dictErase (dictErase S.parameters "comment") "unknown") "skeinforge"
      = S.parameters := by
    rw [dictErase_of_not_mem h1, dictErase_of_not_mem h2, dictErase_of_not_mem h3]
  refine ⟨rfl, ?_, ?_, ?_, rfl, ?_⟩
  · rw [update_state_snd_X, hx]; simp
  · rw [update_state_snd_Y, hy]; simp
  · rw [update_state_snd_Z, hz]; simp
  · rw [update_state_snd_parameters, hdel]
    apply map_lookup_self
    intro kv hkv
    apply sdFold_lookup_mem hkv hnd
    apply dictLookup_none_of_keys hkeys
    have hk1 : kv.1 ∈ S.parameters.map Prod.fst := List.mem_map.mpr ⟨kv, hkv, rfl⟩
    have hne1 : kv.1 ≠ "comment" := fun hh => h1 (hh ▸ hk1)
    have hne2 : kv.1 ≠ "skeinforge" := fun hh => h3 (hh ▸ hk1)
    simp [hne1, hne2]

theorem update_state_congr {S1 S2 : Gcode} (r : Gcode) (hag : agreeState S1 S2)
    (hE : r.E ≠ none) (hF : r.F ≠ none) : update_state r S1 = update_state r S2 := by
  obtain ⟨n1, c1, p1, x1, y1, z1, e1, f1, t1⟩ := S1
  obtain ⟨n2, c2, p2, x2, y2, z2, e2, f2, t2⟩ := S2
  obtain ⟨hn, hx, hy, hz, ht, hp⟩ := hag
  simp only at hn hx hy hz ht hp
  subst hn; subst hx; subst hy; subst hz; subst ht; subst hp
  simp [update_state, hE, hF]

theorem resolveAll_congr {s : List Gcode} {S1 S2 : Gcode} (hag : agreeState S1 S2)
    (hall : ∀ r ∈ s, r.E ≠ none ∧ r.F ≠ none) :
    (resolveAll S1 s).1 = (resolveAll S2 s).1 := by
  cases s with
  | nil => rfl
  | cons r rest =>
    have h := update_state_congr r hag (hall r (by simp)).1 (hall r (by simp)).2
    simp [resolveAll, h]

theorem dictErase_keys_sublist (d : List (String × PVal)) (k : String) :
    ((dictErase d k).map Prod.fst).Sublist (d.map Prod.fst) := by
  induction d with
  | nil => simp [dictErase]
  | cons e rest ih =>
    obtain ⟨k1, v1⟩ := e
    by_cases h1 : k1 = k
    · simp [dictErase, h1]
    · simpa [dictErase, h1] using ih

theorem update_state_step_stateOK (r S : Gcode) (h : stateOK S) :
    stateOK (update_state r S).2 := by
  obtain ⟨hnd, h1, h2, h3⟩ := h
  have hdel :
      dictErase (dictErase (dictErase S.parameters "comment") "unknown") "skeinforge"
      = S.parameters := by
    rw [dictErase_of_not_mem h1, dictErase_of_not_mem h2, dictErase_of_not_mem h3]
  have hkeys : (update_state r S).2.parameters.map Prod.fst = S.parameters.map Prod.fst := by
    rw [update_state_snd_parameters, hdel, List.map_map]
    rfl
  exact ⟨hkeys ▸ hnd, hkeys ▸ h1, hkeys ▸ h2, hkeys ▸ h3⟩

theorem stateOK_resolveAll {p : List Gcode} : ∀ {S : Gcode}, stateOK S →
    stateOK (resolveAll S p).2 := by
  induction p with
  | nil => intro S h; exact h
  | cons r rest ih =>
    intro S h
    exact ih (update_state_step_stateOK r S h)

theorem resolveAll_append (S : Gcode) (l1 l2 : List Gcode) :
    resolveAll S (l1 ++ l2)
    = ((resolveAll S l1).1 ++ (resolveAll (resolveAll S l1).2 l2).1,
       (resolveAll (resolveAll S l1).2 l2).2) := by
  induction l1 generalizing S with
  | nil => simp [resolveAll]
  | cons r rest ih => simp [resolveAll, ih]

theorem resolveAll_length (S : Gcode) (l : List Gcode) :
    (resolveAll S l).1.length = l.length := by
  induction l generalizing S with
  | nil => rfl
  | cons r rest ih => simp [resolveAll, ih]

theorem stateOK_create_lastState : stateOK create_lastState := by
  constructor
  · decide
  · refine ⟨?_, ?_, ?_⟩ <;> decide

theorem emitLoop_mem {fuel : Nat} : ∀ {e : List Gcode} {i : Nat} {z : Fl} {pre : String}
    {t : Int} {r : Gcode}, r ∈ (emitLoop fuel e i z pre t).2.2 →
    r.Z = some z ∧ r.T = some t := by
  induction fuel with
  | zero => intro e i z pre t r hr; simp [emitLoop] at hr
  | succ n ih =>
    intro e i z pre t r hr
    rw [emitLoop] at hr
    split at hr
    case isTrue hc =>
      split at hr
      case isTrue hi =>
        simp only [List.mem_singleton] at hr
        subst hr
        exact ⟨hc, rfl⟩
      case isFalse hi =>
        simp only [List.mem_cons] at hr
        rcases hr with hr | hr
        · subst hr; exact ⟨hc, rfl⟩
        · exact ih hr
    case isFalse hc => simp at hr

theorem step2A_mem {e1 : List Gcode} {l1 : Nat} {z : Fl} {cnt : Nat} {r : Gcode}
    (hr : r ∈ (step2A e1 l1 z cnt).2.2.2) :
    r.T = some 0 ∧ (r.Z = none ∨ r.Z = some z) := by
  unfold step2A at hr
  split at hr
  case isTrue hc =>
    simp only [List.mem_cons] at hr
    rcases hr with hr | hr
    · subst hr; exact ⟨rfl, Or.inl rfl⟩
    · obtain ⟨hz, ht⟩ := emitLoop_mem hr
      exact ⟨ht, Or.inr hz⟩
  case isFalse hc => simp at hr

theorem step2B_mem {e2 : List Gcode} {l2 : Nat} {z : Fl} {cnt : Nat} {r : Gcode}
    (hr : r ∈ (step2B e2 l2 z cnt).2.2.2) :
    (r.Z = none ∨ r.Z = some z) ∧ (r.T = some 0 → r.Z = none) := by
  unfold step2B at hr
  split at hr
  case isTrue hc =>
    simp only [List.mem_cons] at hr
    rcases hr with hr | hr
    · subst hr; exact ⟨Or.inl rfl, fun _ => rfl⟩
    · obtain ⟨hz, ht⟩ := emitLoop_mem hr
      refine ⟨Or.inr hz, fun h0 => ?_⟩
      rw [ht] at h0
      simp at h0
  case isFalse hc => simp at hr

theorem mergeStep2_mem_Z : ∀ (zs : List Fl) (e1 : List Gcode) (l1 : Nat) (e2 : List Gcode)
    (l2 : Nat) (cnt : Nat) (r : Gcode), r ∈ (mergeStep2 zs e1 l1 e2 l2 cnt).2.2 →
    r.Z = none ∨ ∃ z ∈ zs, r.Z = some z := by
  intro zs
  induction zs with
  | nil => intro e1 l1 e2 l2 cnt r hr; simp [mergeStep2] at hr
  | cons z zs ih =>
    intro e1 l1 e2 l2 cnt r hr
    rw [mergeStep2] at hr
    simp only [List.mem_append] at hr
    rcases hr with hr | hr | hr
    · rcases (step2A_mem hr).2 with h | h
      · exact Or.inl h
      · exact Or.inr ⟨z, by simp, h⟩
    · rcases (step2B_mem hr).1 with h | h
      · exact Or.inl h
      · exact Or.inr ⟨z, by simp, h⟩
    · rcases ih _ _ _ _ _ r hr with h | ⟨z', hz', h⟩
      · exact Or.inl h
      · exact Or.inr ⟨z', by simp [hz'], h⟩

theorem mergeStep2_pairwise (h : Fl) : ∀ (zs : List Fl), zs.Nodup →
    ∀ (e1 : List Gcode) (l1 : Nat) (e2 : List Gcode) (l2 : Nat) (cnt : Nat),
    ((mergeStep2 zs e1 l1 e2 l2 cnt).2.2).Pairwise (mergeOrderOK h) := by
  intro zs
  induction zs with
  | nil => intro _ e1 l1 e2 l2 cnt; simp [mergeStep2]
  | cons z zs ih =>
    intro hnd e1 l1 e2 l2 cnt
    obtain ⟨hz, hnd'⟩ := List.nodup_cons.mp hnd
    rw [mergeStep2]
    simp only []
    rw [List.pairwise_append]
    refine ⟨?_, ?_, ?_⟩
    · -- within stream A's chunk every record has tool 0, so it is never a
      -- stream-B record
      apply List.pairwise_of_forall_mem_list
      intro a ha b _
      intro hcon
      have h0 := (step2A_mem ha).1
      rw [h0] at hcon
      exact absurd hcon.1 (by simp)
    · rw [List.pairwise_append]
      refine ⟨?_, ih hnd' _ _ _ _ _, ?_⟩
      · -- within stream B's chunk a tool-0 record is the T1 marker, whose Z
        -- is None
        apply List.pairwise_of_forall_mem_list
        intro a _ b hb
        intro hcon
        have h0 := (step2B_mem hb).2 hcon.2.2.1
        rw [h0] at hcon
        exact absurd hcon.2.2.2 (by simp)
      · -- stream B's chunk at height z versus later chunks: a later tool-0
        -- record at a height sits at some z' of the remaining zs, and z is
        -- not among them
        intro a ha b hb
        intro hcon
        rcases (step2B_mem ha).1 with h0 | h0
        · rw [h0] at hcon; exact absurd hcon.2.1 (by simp)
        · rcases mergeStep2_mem_Z _ _ _ _ _ _ b hb with h1 | ⟨z', hz', h1⟩
          · rw [h1] at hcon; exact absurd hcon.2.2.2 (by simp)
          · have hza : z = h := by
              have hh := hcon.2.1; rw [h0] at hh
              exact Option.some_injective _ hh
            have hzb : z' = h := by
              have hh := hcon.2.2.2; rw [h1] at hh
              exact Option.some_injective _ hh
            exact hz (hza ▸ hzb ▸ hz')
    · -- stream A's chunk versus everything later: tool 0 everywhere
      intro a ha b _
      intro hcon
      have h0 := (step2A_mem ha).1
      rw [h0] at hcon
      exact absurd hcon.1 (by simp)

theorem insertSortedFl_perm (x : Fl) (l : List Fl) :
    (insertSortedFl x l).Perm (x :: l) := by
  induction l with
  | nil => simp [insertSortedFl]
  | cons y ys ih =>
    rw [insertSortedFl]
    by_cases hc : Fl.leB x y
    · simp [hc]
    · simp only [hc, if_false, Bool.false_eq_true]
      exact (ih.cons y).trans (List.Perm.swap x y ys)

theorem sortFl_perm (l : List Fl) : (sortFl l).Perm l := by
  induction l with
  | nil => simp [sortFl]
  | cons y ys ih =>
    rw [sortFl, List.foldr_cons]
    exact (insertSortedFl_perm y (sortFl ys)).trans (ih.cons y)

theorem mergeZvalues_nodup (e1 : List Gcode) (l1 : Nat) (e2 : List Gcode) (l2 : Nat) :
    (mergeZvalues e1 l1 e2 l2).Nodup := by
  unfold mergeZvalues
  exact (sortFl_perm _).symm.nodup (List.nodup_dedup _)

theorem addGcodeGo_reg_mono : ∀ (cmds : List Gcode) {reg : List (Option Fl)}
    {curves : List (Option Fl × List Gcode)} {reg2 : List (Option Fl)}
    {curves2 : List (Option Fl × List Gcode)},
    addGcodeGo reg curves cmds = .ok (reg2, curves2) → ∀ x ∈ reg, x ∈ reg2 := by
  intro cmds
  induction cmds with
  | nil =>
    intro reg curves reg2 curves2 h x hx
    simp only [addGcodeGo, Except.ok.injEq, Prod.mk.injEq] at h
    exact h.1 ▸ hx
  | cons cmd rest ih =>
    intro reg curves reg2 curves2 h x hx
    rw [addGcodeGo] at h
    split at h
    · exact ih h x hx
    · split at h
      · split at h
        · exact ih h x hx
        · simp at h
      · exact ih h x (by simp [hx])

theorem tokenizeLine_malformed (n : Nat) :
    tokenizeLine n "G1 Xabc" = .error "ValueError: could not convert string to float: abc" := rfl

theorem tokenizeFrom_malformed : ∀ (pre : List String) (n : Nat) (post : List String),
    ∃ msg, tokenizeFrom n (pre ++ "G1 Xabc" :: post) = .error msg := by
  intro pre
  induction pre with
  | nil =>
    intro n post
    refine ⟨"ValueError: could not convert string to float: abc", ?_⟩
    rw [List.nil_append, tokenizeFrom, tokenizeLine_malformed]
    rfl
  | cons head tail ih =>
    intro n post
    cases ht : tokenizeLine (n + 1) head with
    | error e =>
      refine ⟨e, ?_⟩
      rw [List.cons_append, tokenizeFrom, ht]
      rfl
    | ok g =>
      obtain ⟨m, hm⟩ := ih (n + 1) post
      refine ⟨m, ?_⟩
      rw [List.cons_append, tokenizeFrom, ht, hm]
      rfl

theorem applyReprapIfKnown_missing_S {c : Gcode}
    (h3 : c.command ∈ (["M104", "M109", "M113"] : List String))
    (h4 : dictLookup c.parameters "S" = none) :
    applyReprapIfKnown c = .error "KeyError: S" := by
  simp only [List.mem_cons, List.not_mem_nil, or_false] at h3
  rcases h3 with hc | hc | hc <;>
    simp [applyReprapIfKnown, reprapGcodeKeys, applyReprapGcode, hc,
      gcode_set_extruder_temp_cont, gcode_set_extruder_temp_wait,
      gcode_set_extruder_pwm, h4]

theorem applyReprapAll_missing_S : ∀ (toks : List Gcode) {c : Gcode}, c ∈ toks →
    c.command ∈ (["M104", "M109", "M113"] : List String) →
    dictLookup c.parameters "S" = none →
    ∃ msg, applyReprapAll toks = .error msg := by
  intro toks
  induction toks with
  | nil => intro c hmem; simp at hmem
  | cons t rest ih =>
    intro c hmem h3 h4
    rcases List.mem_cons.mp hmem with heq | hmem'
    · subst heq
      refine ⟨"KeyError: S", ?_⟩
      rw [applyReprapAll, applyReprapIfKnown_missing_S h3 h4]
      rfl
    · cases happ : applyReprapIfKnown t with
      | error e =>
        refine ⟨e, ?_⟩
        rw [applyReprapAll, happ]
        rfl
      | ok t' =>
        obtain ⟨m, hm⟩ := ih hmem' h3 h4
        refine ⟨m, ?_⟩
        rw [applyReprapAll, happ, hm]
        rfl

theorem resolveAll_cons (st c : Gcode) (rest : List Gcode) :
    resolveAll st (c :: rest)
    = ((update_state c st).1 :: (resolveAll (update_state c st).2 rest).1,
       (resolveAll (update_state c st).2 rest).2) := rfl

/-- C1: for the stream `["G1 X10 Y10 Z0.2 E5 F1200", "G1 Y20"]`, the claim
says state resolution yields `X=10, Y=20, Z=0.2, E=5, F=1200` for the
second record — and so does the conversion routine's own documentation
("the E and F values must be transferred ... as they were unchanged").
The code, however, initialises `E` and `F` to `0.0` instead of `None`, and
`update_state` only inherits a field that is `None`, so the second record
resolves to `E = 0.0, F = 0.0` (X, Z are inherited as claimed, Y is its
own): this theorem evaluates the pipeline at the failing input. -/
theorem c1_second_record_eval :
    (convert_rawGcode_to_standardGcode c1_lines).map
      (fun l => (l.get? 1).map (fun r => (r.X, r.Y, r.Z, r.E, r.F)))
    = .ok (some (some ⟨10, 1⟩, some ⟨20, 1⟩, some ⟨1, 5⟩, some ⟨0, 1⟩, some ⟨0, 1⟩)) := rfl

/-- C3 counterexample: the claim says a malformed parameter token fails only
that record and the whole-stream pass continues past it; in the code the
uncaught ValueError from `float("abc")` aborts the whole conversion — on
`["G1 Xabc", "G1 X1 Y1"]` no output list is produced at all. -/
theorem c3_counterexample :
    convert_rawGcode_to_standardGcode ["G1 Xabc", "G1 X1 Y1"]
    = .error "ValueError: could not convert string to float: abc" := rfl

/-- C3 (amended): any stream containing the line `"G1 Xabc"` (a recognized
opcode with a non-numeric parameter remainder) makes the whole-stream
conversion abort with an error, wherever the line occurs; only a line whose
*first* token is unrecognized is classified `unknown` and skipped. -/
theorem c3_malformed_parameter_aborts (pre post : List String) :
    ∃ msg, convert_rawGcode_to_standardGcode (pre ++ "G1 Xabc" :: post) = .error msg := by
  obtain ⟨m, hm⟩ := tokenizeFrom_malformed pre 0 post
  refine ⟨m, ?_⟩
  rw [convert_rawGcode_to_standardGcode, hm]
  rfl

/-- C5 counterexample: merging the same two streams with the same split
indices twice does not produce identical output — the first merge has
mutated the source records in place. -/
theorem c5_counterexample :
    (merge_extruders c5e1 c5e2 1 1).2.2
    ≠ ((merge_extruders (merge_extruders c5e1 c5e2 1 1).1
        (merge_extruders c5e1 c5e2 1 1).2.1 1 1).2.2) := by
  decide

/-- C5 (amended): the first merge rewrites the emitted source records'
sequence ids in place, so the second merge of the (now mutated) streams
emits doubly-prefixed ids (`a_a_n`, `b_b_n`) where the first merge emitted
`a_n` / `b_n`, and its output therefore differs; merging is deterministic
only from equal source-record states. -/
theorem c5_second_merge_double_prefixed :
    ((merge_extruders c5e1 c5e2 1 1).2.2.map (fun r => r.name)
      = ["x_1", "a_1", "x_2", "x_3", "b_1", "x_4", "x_5", "a_2", "x_6", "b_2"])
    ∧ ((merge_extruders (merge_extruders c5e1 c5e2 1 1).1
          (merge_extruders c5e1 c5e2 1 1).2.1 1 1).2.2.map (fun r => r.name)
      = ["x_1", "a_a_1", "x_2", "x_3", "b_b_1", "x_4", "x_5", "a_a_2", "x_6", "b_b_2"]) :=
  ⟨rfl, rfl⟩

/-- C7: the `G28` transform zeroes all of X/Y/Z when none is present, zeroes
exactly the present ones otherwise, and never touches any other field of
the record (the `{cmd with ...}` updates leave every other field as is). -/
theorem c7_g28_home_axes (cmd : Gcode) :
    gcode_move_to_origin cmd =
      (if cmd.X = none ∧ cmd.Y = none ∧ cmd.Z = none then
        { cmd with X := some Fl.zero, Y := some Fl.zero, Z := some Fl.zero }
      else
        { cmd with
          X := if cmd.X = none then cmd.X else some Fl.zero,
          Y := if cmd.Y = none then cmd.Y else some Fl.zero,
          Z := if cmd.Z = none then cmd.Z else some Fl.zero }) := by
  unfold gcode_move_to_origin
  by_cases hx : cmd.X = none <;> by_cases hy : cmd.Y = none <;> by_cases hz : cmd.Z = none <;>
    simp [hx, hy, hz]

/-- C8: on the resolved stream `[G1 X0 Y0 Z0 E0 F0, G1 X5 Y0 Z0 E2 F0,
G1 X5 Y5 Z0 E0 F0, G1 X0 Y5 Z0 E2 F0]` segmentation produces at height 0
exactly the two splines `[pt1, pt2]` and `[pt3, pt4]`: the ΔE ≤ 0 move
from pt2 to pt3 closes the first spline and opens the second. -/
theorem c8_scenario_two_splines :
    segmentRun [] [c8p1, c8p2, c8p3, c8p4]
    = .ok ([some Fl.zero], [(some Fl.zero, [[c8p1, c8p2], [c8p3, c8p4]])]) := rfl

/-- C9: every spline the segmenter returns contains at least 2 records —
the final filter of `create_splines_data` drops the shorter ones. -/
theorem c9_spline_min_length (cmds : List Gcode) (sp : List Gcode)
    (h : sp ∈ create_splines_data cmds) : 2 ≤ sp.length := by
  cases cmds with
  | nil => simp [create_splines_data] at h
  | cons first rest =>
    unfold create_splines_data at h
    have := (List.mem_filter.mp h).2
    exact of_decide_eq_true this

/-- Witness for C9 at a concrete input. -/
theorem c9_spline_min_length_witness :
    [c8p1, c8p2] ∈ create_splines_data [c8p1, c8p2, c8p3, c8p4]
    ∧ 2 ≤ ([c8p1, c8p2] : List Gcode).length :=
  ⟨by decide, c9_spline_min_length [c8p1, c8p2, c8p3, c8p4] [c8p1, c8p2] (by decide)⟩

/-- C10: a tokenized record whose opcode is M104, M109 or M113 but whose
parameters hold no `S` key makes the opcode-transform pass raise an
uncaught KeyError, so the conversion of the entire stream aborts with an
error instead of producing a record list. -/
theorem c10_missing_S_aborts (lines : List String) (toks : List Gcode) (c : Gcode)
    (h1 : tokenizeFrom 0 lines = .ok toks) (h2 : c ∈ toks)
    (h3 : c.command ∈ (["M104", "M109", "M113"] : List String))
    (h4 : dictLookup c.parameters "S" = none) :
    ∃ msg, convert_rawGcode_to_standardGcode lines = .error msg := by
  obtain ⟨m, hm⟩ := applyReprapAll_missing_S toks h2 h3 h4
  refine ⟨m, ?_⟩
  rw [convert_rawGcode_to_standardGcode, h1]
  change (do
    let ts ← applyReprapAll toks
    pure (resolveAll create_lastState ts).1 : Except String (List Gcode)) = Except.error m
  rw [hm]
  rfl

/-- Witness for C10: the single-line stream `["M104"]`. -/
theorem c10_missing_S_aborts_witness :
    tokenizeFrom 0 ["M104"] = .ok [c10rec]
    ∧ c10rec ∈ [c10rec]
    ∧ c10rec.command ∈ (["M104", "M109", "M113"] : List String)
    ∧ dictLookup c10rec.parameters "S" = none
    ∧ ∃ msg, convert_rawGcode_to_standardGcode ["M104"] = .error msg :=
  ⟨rfl, by simp, by decide, rfl,
   c10_missing_S_aborts ["M104"] [c10rec] c10rec rfl (by simp) (by decide) rfl⟩

/-- C2 counterexample: the claim also asserts that an inserted Comment
record's own fields are not rewritten from the running state; in the code
every record — comments included — goes through `update_state`, so the
comment line `"; hello"` (tokenized with `X = None`) comes out of
resolution with `X = 10` inherited from the preceding move. -/
theorem c2_counterexample :
    (tokenizeLine 2 "; hello").map (fun r => r.X) = .ok none
    ∧ (convert_rawGcode_to_standardGcode ["G1 X10 Y10 Z0.2 E5 F1200", "; hello"]).map
        (fun l => (l.get? 1).map (fun r => (r.command, r.X)))
      = .ok (some ("comment", some ⟨10, 1⟩)) :=
  ⟨rfl, rfl⟩

/-- C2 (amended): inserting a `comment` / `skeinforge` / `unknown` record
anywhere into a stream leaves the resolved fields of every *other* record
exactly as if the record were absent (the sentinel record writes only the
running state's `command`, `E` and `F`, none of which a tokenizer-produced
record — whose own `E`/`F` are never `None` — can observe); the inserted
record itself, however, does pass through state resolution. -/
theorem c2_sentinel_frame (p s : List Gcode) (c : Gcode)
    (hc : commentLike c) (hs : ∀ r ∈ s, r.E ≠ none ∧ r.F ≠ none) :
    ((resolveAll create_lastState (p ++ c :: s)).1).eraseIdx p.length
    = (resolveAll create_lastState (p ++ s)).1 := by
  have hOK : stateOK (resolveAll create_lastState p).2 :=
    stateOK_resolveAll stateOK_create_lastState
  have hag := update_state_comment_snd hOK hc
  have h1 := resolveAll_append create_lastState p (c :: s)
  have h2 := resolveAll_append create_lastState p s
  rw [h1, resolveAll_cons]
  rw [show p.length = (resolveAll create_lastState p).1.length
      from (resolveAll_length _ _).symm]
  rw [eraseIdx_append_cons, h2]
  exact congrArg _ (resolveAll_congr hag hs)

/-- Witness for C2 at a concrete input. -/
theorem c2_sentinel_frame_witness :
    commentLike c2c ∧ (∀ r ∈ [c2r2], r.E ≠ none ∧ r.F ≠ none)
    ∧ ((resolveAll create_lastState ([c2r1] ++ c2c :: [c2r2])).1).eraseIdx 1
      = (resolveAll create_lastState ([c2r1] ++ [c2r2])).1 :=
  ⟨by unfold commentLike; decide, by decide,
   c2_sentinel_frame [c2r1] [c2r2] c2c (by unfold commentLike; decide) (by decide)⟩

/-- C4 counterexample: the claim says running segmentation twice on the
same resolved stream yields identical output; in fact the class-level
`gcodeCurve._registry` survives the first run, and the second run's lookup
`self.gcodeCurves[zValue]` raises KeyError instead of reproducing the
output. -/
theorem c4_counterexample :
    segmentRun [] [c8p1, c8p2] = .ok ([some Fl.zero], [(some Fl.zero, [[c8p1, c8p2]])])
    ∧ segmentRun [some Fl.zero] [c8p1, c8p2] = .error "KeyError" :=
  ⟨rfl, rfl⟩

/-- C4 (amended): segmentation is a pure function of the stream *and* the
process-wide registry, but the registry carried over from a first
successful run breaks the second run: for any stream whose first record is
drawable (not a sentinel, with a height), the second run raises KeyError
at that record instead of reproducing the first run's output. -/
theorem c4_second_run_keyerror (r : Gcode) (rest : List Gcode)
    (reg1 : List (Option Fl)) (out1 : List (Option Fl × List (List Gcode)))
    (hcmd : r.command ∉ (["comment", "skeinforge", "unknown"] : List String))
    (hz : r.Z ≠ none)
    (h1 : segmentRun [] (r :: rest) = .ok (reg1, out1)) :
    segmentRun reg1 (r :: rest) = .error "KeyError" := by
  have hstep : addGcodeGo [] [] (r :: rest) = addGcodeGo [r.Z] [(r.Z, [r])] rest := by
    rw [addGcodeGo]
    simp [hcmd]
  unfold segmentRun at h1
  rw [hstep] at h1
  cases hgo : addGcodeGo [r.Z] [(r.Z, [r])] rest with
  | error e => rw [hgo] at h1; simp at h1
  | ok pr =>
    obtain ⟨reg2, curves2⟩ := pr
    rw [hgo] at h1
    simp only [Except.ok.injEq, Prod.mk.injEq] at h1
    have hz2 : r.Z ∈ reg2 := addGcodeGo_reg_mono rest hgo r.Z (by simp)
    have hmem : r.Z ∈ reg1 := by
      rw [← h1.1]
      unfold popNoneLayer
      cases hl : zLookup curves2 none with
      | some _ =>
        simp only []
        exact (List.mem_erase_of_ne hz).mpr hz2
      | none => exact hz2
    have habort : addGcodeGo reg1 [] (r :: rest) = .error "KeyError" := by
      rw [addGcodeGo]
      simp [hcmd, hmem, zLookup]
    unfold segmentRun
    rw [habort]

/-- Witness for C4 at a concrete input. -/
theorem c4_second_run_keyerror_witness :
    c8p1.command ∉ (["comment", "skeinforge", "unknown"] : List String)
    ∧ c8p1.Z ≠ none
    ∧ segmentRun [some Fl.zero] [c8p1, c8p2] = .error "KeyError" :=
  ⟨by decide, by decide,
   c4_second_run_keyerror c8p1 [c8p2] [some Fl.zero] [(some Fl.zero, [[c8p1, c8p2]])]
     (by decide) (by decide) rfl⟩

/-- C6: the merged output is the two header blocks followed by the
height-interleaved body, and within the body, for every height h, no
stream-B record at h (tool 1) ever precedes a stream-A record at h
(tool 0) — stream A's run at each height is emitted before stream B's,
and every emitted body record carries the height of the Z value being
processed. -/
theorem c6_merge_height_ordering (e1 e2 : List Gcode) (l1 l2 : Nat) (h : Fl) :
    ((merge_extruders e1 e2 l1 l2).2.2
      = (mergeHeaders e1 e2 l1 l2).2.2 ++ mergeBody e1 e2 l1 l2)
    ∧ (mergeBody e1 e2 l1 l2).Pairwise (mergeOrderOK h) := by
  constructor
  · rfl
  · exact mergeStep2_pairwise h _
      (mergeZvalues_nodup (mergeHeaders e1 e2 l1 l2).1 l1 (mergeHeaders e1 e2 l1 l2).2.1 l2)
      _ _ _ _ _
